import Mathlib

/-
Verification of the tod command-line client's list-processing engine
against its natural-language specification.

The Rust sources are shallowly embedded: pure functions become Lean
functions; interactive prompts and remote calls are made observable by
returning explicit logs next to the result; the config store is a plain
record.  Each definition names the Rust item it embeds.
-/

deriving instance DecidableEq for Except

namespace Tod

/-- A remembered project, as stored in the local config
(`projects::Project`; only the `name` field is consulted by the
selector resolver in `src/commands/mod.rs`). -/
structure Project where
  name : String
deriving DecidableEq, Repr

/-- `errors::Error`: a source tag plus a human-readable message
(the two fields visible at `src/commands/list_commands.rs`,
`select_file`). -/
structure Error where
  source : String
  message : String
deriving DecidableEq, Repr

/-- A task, as recalled from the resumable pointer
(`tasks::Task`; only its identity matters to the claims below). -/
structure Task where
  id : String
  content : String
deriving DecidableEq, Repr

/-- `lists::Flag`: the tagged selector value produced by the
selector resolver. -/
inductive Flag where
  | Project (p : Project)
  | Filter (s : String)
deriving DecidableEq, Repr

/-- `commands::FlagOptions` (src/commands/mod.rs): the two options
offered when neither a project nor a filter flag is supplied. -/
inductive FlagOptions where
  | Project
  | Filter
deriving DecidableEq, Repr

/-- Observable interactive prompts.  Each constructor tags one call into
the prompt boundary (`input::select` / `input::string`) made by the
embedded functions. -/
inductive Prompt where
  | selectFlagOption
  | selectProject
  | stringFilter
  | stringContent
deriving DecidableEq, Repr

/-- Modelled from the spec: the prompt boundary yields deterministic
answers (the "mock select / mock string" testability seam); this record
carries the user's answer for every prompt the resolver may raise. -/
structure UserInput where
  optionChoice : FlagOptions
  projectChoice : Nat
  filterText : String
  contentText : String
  fileChoice : Nat
deriving DecidableEq, Repr

/-- Modelled from the spec: the local configuration store.  The core
consumes a read accessor for remembered projects and a read accessor for
the resumable task pointer (`config.projects()`, `config.next_task()`);
both are plain fields here. -/
structure Config where
  projects : List Project
  next_task : Option Task
deriving DecidableEq, Repr

/-- `NO_PROJECTS_ERR` (src/commands/mod.rs line 40). -/
def NO_PROJECTS_ERR : String :=
  "No projects in config. Add projects with `tod project import`"

/-- `fetch_project` (src/commands/mod.rs lines 477-504).  The second
component logs the prompts raised. -/
def fetch_project (project_name : Option String) (config : Config)
    (ui : UserInput) : Except Error Flag × List Prompt :=
  let projects := config.projects
  if projects.isEmpty then
    (Except.error (Error.mk "fetch_project" NO_PROJECTS_ERR), [])
  else if projects.length == 1 then
    (Except.ok (Flag.Project (projects.headD (Project.mk ""))), [])
  else
    match project_name with
    | some name =>
      match projects.find? (fun p => p.name == name) with
      | some p => (Except.ok (Flag.Project p), [])
      | none =>
        (Except.error
          (Error.mk "fetch_project" "Could not find project in config"), [])
    | none =>
      (Except.ok
        (Flag.Project
          (projects.getD ui.projectChoice (projects.headD (Project.mk "")))),
       [Prompt.selectProject])

/-- `fetch_filter` (src/commands/mod.rs lines 506-514). -/
def fetch_filter (filter : Option String) (_config : Config)
    (ui : UserInput) : Except Error Flag × List Prompt :=
  match filter with
  | some string => (Except.ok (Flag.Filter string), [])
  | none => (Except.ok (Flag.Filter ui.filterText), [Prompt.stringFilter])

/-- `fetch_project_or_filter` (src/commands/mod.rs lines 516-536). -/
def fetch_project_or_filter (project : Option String) (filter : Option String)
    (config : Config) (ui : UserInput) : Except Error Flag × List Prompt :=
  match project, filter with
  | some _, none => fetch_project project config ui
  | none, some _ => fetch_filter filter config ui
  | some _, some _ =>
    (Except.error (Error.mk "project_or_filter" "Must select project OR filter"),
     [])
  | none, none =>
    match ui.optionChoice with
    | FlagOptions.Project =>
      let r := fetch_project project config ui
      (r.1, Prompt.selectFlagOption :: r.2)
    | FlagOptions.Filter =>
      let r := fetch_filter filter config ui
      (r.1, Prompt.selectFlagOption :: r.2)

/-- C1, as stated, is false: with exactly one remembered project and
neither flag supplied, the resolver still raises the Project-or-Filter
choice prompt before auto-selecting the project, so the prompt log is
not empty. -/
theorem c1_counterexample :
    (fetch_project_or_filter none none
        (Config.mk [Project.mk "Inbox"] none)
        (UserInput.mk FlagOptions.Project 0 "" "" 0)).1 =
      Except.ok (Flag.Project (Project.mk "Inbox")) ∧
    (fetch_project_or_filter none none
        (Config.mk [Project.mk "Inbox"] none)
        (UserInput.mk FlagOptions.Project 0 "" "" 0)).2 ≠ [] := by
  decide

/-- C1 (amended): with exactly one remembered project and neither flag
supplied, the resolver first raises exactly one prompt — the
Project-or-Filter choice — and, when the user picks Project, returns
that single project without any further project-selection prompt. -/
theorem c1_single_project_one_prompt (config : Config) (p : Project)
    (ui : UserInput) (hp : config.projects = [p])
    (hui : ui.optionChoice = FlagOptions.Project) :
    fetch_project_or_filter none none config ui =
      (Except.ok (Flag.Project p), [Prompt.selectFlagOption]) := by
  unfold fetch_project_or_filter
  rw [hui]
  unfold fetch_project
  rw [hp]
  rfl

/-- Witness for C1's amended theorem at a concrete config. -/
theorem c1_single_project_one_prompt_witness :
    (Config.mk [Project.mk "Inbox"] none).projects = [Project.mk "Inbox"] ∧
    (UserInput.mk FlagOptions.Project 0 "" "" 0).optionChoice =
      FlagOptions.Project ∧
    fetch_project_or_filter none none
        (Config.mk [Project.mk "Inbox"] none)
        (UserInput.mk FlagOptions.Project 0 "" "" 0) =
      (Except.ok (Flag.Project (Project.mk "Inbox")),
       [Prompt.selectFlagOption]) :=
  ⟨rfl, rfl,
    c1_single_project_one_prompt _ _ _ rfl rfl⟩

/-- C2, as stated, is false: with exactly one remembered project
("Inbox") and the supplied name "Work", `fetch_project` returns the
remembered project "Inbox" — whose name differs from the supplied one —
instead of failing with the project-not-found error. -/
theorem c2_counterexample :
    (fetch_project (some "Work") (Config.mk [Project.mk "Inbox"] none)
        (UserInput.mk FlagOptions.Project 0 "" "" 0)).1 =
      Except.ok (Flag.Project (Project.mk "Inbox")) ∧
    (Project.mk "Inbox").name ≠ "Work" ∧
    (fetch_project (some "Work") (Config.mk [Project.mk "Inbox"] none)
        (UserInput.mk FlagOptions.Project 0 "" "" 0)).1 ≠
      Except.error (Error.mk "fetch_project" "Could not find project in config") := by
  decide

/-- C2 (amended): when the remembered-project list holds exactly one
project, that project is returned regardless of the supplied name; when
it holds at least two, the supplied name is matched verbatim — the
matching remembered project is returned, and if none matches the
resolution fails with the project-not-found lookup error. -/
theorem c2_supplied_name_lookup (config : Config) (name : String)
    (ui : UserInput) :
    (∀ p, config.projects = [p] →
      fetch_project (some name) config ui =
        (Except.ok (Flag.Project p), [])) ∧
    (2 ≤ config.projects.length →
      ((∃ p, p ∈ config.projects ∧ p.name = name ∧
          fetch_project (some name) config ui =
            (Except.ok (Flag.Project p), [])) ∨
       ((∀ p, p ∈ config.projects → p.name ≠ name) ∧
        fetch_project (some name) config ui =
          (Except.error
            (Error.mk "fetch_project" "Could not find project in config"),
           [])))) := by
  constructor
  · intro p hp
    unfold fetch_project
    rw [hp]
    rfl
  · intro h2
    have hne : config.projects.isEmpty = false := by
      cases hl : config.projects with
      | nil => rw [hl] at h2; simp at h2
      | cons a tl => rfl
    have hlen : (config.projects.length == 1) = false := by
      rw [beq_eq_false_iff_ne]
      omega
    cases hf : config.projects.find? (fun p => p.name == name) with
    | some p =>
      left
      refine ⟨p, List.mem_of_find?_eq_some hf, ?_, ?_⟩
      · have := List.find?_some hf
        simpa using this
      · simp only [fetch_project, hne, hlen, Bool.false_eq_true, if_false, hf]
    | none =>
      right
      constructor
      · intro p hp hname
        have := List.find?_eq_none.mp hf p hp
        simp [hname] at this
      · simp only [fetch_project, hne, hlen, Bool.false_eq_true, if_false, hf]

/-- Witness for C2's amended theorem at a concrete two-project config. -/
theorem c2_supplied_name_lookup_witness :
    2 ≤ (Config.mk [Project.mk "Inbox", Project.mk "Work"] none).projects.length ∧
    ((∃ p, p ∈ (Config.mk [Project.mk "Inbox", Project.mk "Work"] none).projects ∧
        p.name = "Work" ∧
        fetch_project (some "Work")
            (Config.mk [Project.mk "Inbox", Project.mk "Work"] none)
            (UserInput.mk FlagOptions.Project 0 "" "" 0) =
          (Except.ok (Flag.Project p), [])) ∨
     ((∀ p, p ∈ (Config.mk [Project.mk "Inbox", Project.mk "Work"] none).projects →
          p.name ≠ "Work") ∧
      fetch_project (some "Work")
          (Config.mk [Project.mk "Inbox", Project.mk "Work"] none)
          (UserInput.mk FlagOptions.Project 0 "" "" 0) =
        (Except.error
          (Error.mk "fetch_project" "Could not find project in config"),
         []))) :=
  ⟨by decide,
   (c2_supplied_name_lookup
      (Config.mk [Project.mk "Inbox", Project.mk "Work"] none) "Work"
      (UserInput.mk FlagOptions.Project 0 "" "" 0)).2 (by decide)⟩

/-- C3: supplying both a project and a filter always fails with the
selector-conflict usage error "Must select project OR filter", raising
no prompt at all, for every pair of supplied values. -/
theorem c3_selector_conflict (p f : String) (config : Config)
    (ui : UserInput) :
    fetch_project_or_filter (some p) (some f) config ui =
      (Except.error
        (Error.mk "project_or_filter" "Must select project OR filter"),
       []) :=
  rfl

/-- C4: with an empty remembered-project list, project resolution fails
with the no-projects-configured error for every supplied name, both when
called directly and through the Project branch of the combined resolver. -/
theorem c4_no_projects_configured (project_name : Option String)
    (config : Config) (ui : UserInput) (h : config.projects = []) :
    fetch_project project_name config ui =
      (Except.error (Error.mk "fetch_project" NO_PROJECTS_ERR), []) ∧
    (ui.optionChoice = FlagOptions.Project →
      fetch_project_or_filter none none config ui =
        (Except.error (Error.mk "fetch_project" NO_PROJECTS_ERR),
         [Prompt.selectFlagOption])) := by
  have hfp : ∀ pn, fetch_project pn config ui =
      (Except.error (Error.mk "fetch_project" NO_PROJECTS_ERR), []) := by
    intro pn
    unfold fetch_project
    rw [h]
    rfl
  refine ⟨hfp project_name, ?_⟩
  intro hui
  unfold fetch_project_or_filter
  rw [hui, hfp none]

/-- Witness for C4 at a concrete empty config. -/
theorem c4_no_projects_configured_witness :
    (Config.mk [] none).projects = [] ∧
    fetch_project (some "Work") (Config.mk [] none)
        (UserInput.mk FlagOptions.Project 0 "" "" 0) =
      (Except.error (Error.mk "fetch_project" NO_PROJECTS_ERR), []) :=
  ⟨rfl,
   (c4_no_projects_configured (some "Work") (Config.mk [] none)
      (UserInput.mk FlagOptions.Project 0 "" "" 0) rfl).1⟩

/-- Observable calls into the remote-service boundary (`todoist::*`). -/
inductive RemoteCall where
  | completeTask (t : Task)
  | createComment (t : Task) (content : String)
deriving DecidableEq, Repr

/-- `complete` (src/commands/task_commands.rs lines 277-289): recall the
resumable pointer; when present, issue the remote completion call, else
fail.  The second component logs remote calls issued. -/
def complete (config : Config) : Except Error String × List RemoteCall :=
  match config.next_task with
  | some task =>
    (Except.ok "Task completed successfully", [RemoteCall.completeTask task])
  | none =>
    (Except.error
      (Error.mk "task_complete"
        "There is nothing to complete. A task must first be marked as 'next'."),
     [])

/-- `Comment` arguments (src/commands/task_commands.rs lines 107-112). -/
structure CommentArgs where
  content : Option String
deriving DecidableEq, Repr

/-- `comment` (src/commands/task_commands.rs lines 291-304): recall the
resumable pointer; when present, fetch the comment text (prompting if the
flag is absent) and issue the remote comment call, else fail.  The
second and third components log remote calls and prompts. -/
def comment (config : Config) (args : CommentArgs) (ui : UserInput) :
    Except Error String × List RemoteCall × List Prompt :=
  match config.next_task with
  | some task =>
    match args.content with
    | some c =>
      (Except.ok "Comment created successfully",
       [RemoteCall.createComment task c], [])
    | none =>
      (Except.ok "Comment created successfully",
       [RemoteCall.createComment task ui.contentText], [Prompt.stringContent])
  | none =>
    (Except.error
      (Error.mk "task_comment"
        "There is nothing to comment on. A task must first be marked as 'next'."),
     [], [])

/-- C5: with no remembered next task in the config, `complete` and
`comment` each fail with their own no-current-task error — the two
errors are distinct, both messages instruct that a task must first be
marked as 'next' — and neither issues any remote call (nor any prompt);
the recall is a pure read of the config. -/
theorem c5_no_current_task (config : Config) (args : CommentArgs)
    (ui : UserInput) (h : config.next_task = none) :
    complete config =
      (Except.error
        (Error.mk "task_complete"
          "There is nothing to complete. A task must first be marked as 'next'."),
       []) ∧
    comment config args ui =
      (Except.error
        (Error.mk "task_comment"
          "There is nothing to comment on. A task must first be marked as 'next'."),
       [], []) ∧
    Error.mk "task_complete"
        "There is nothing to complete. A task must first be marked as 'next'." ≠
      Error.mk "task_comment"
        "There is nothing to comment on. A task must first be marked as 'next'." := by
  refine ⟨?_, ?_, by decide⟩
  · unfold complete
    rw [h]
  · unfold comment
    rw [h]

/-- Witness for C5 at a concrete pointer-free config. -/
theorem c5_no_current_task_witness :
    (Config.mk [] none).next_task = none ∧
    complete (Config.mk [] none) =
      (Except.error
        (Error.mk "task_complete"
          "There is nothing to complete. A task must first be marked as 'next'."),
       []) :=
  ⟨rfl,
   (c5_no_current_task (Config.mk [] none) (CommentArgs.mk none)
      (UserInput.mk FlagOptions.Project 0 "" "" 0) rfl).1⟩

/-- `tasks::SortOrder`: the two sort policies. -/
inductive SortOrder where
  | Datetime
  | Value
deriving DecidableEq, Repr

/-- The list operations taking a `--sort` flag
(src/commands/list_commands.rs; Import takes none). -/
inductive ListCommand where
  | View
  | Process
  | Prioritize
  | Timebox
  | Label
  | Schedule
  | Deadline
deriving DecidableEq, Repr

/-- The `default_value_t` of each list operation's `--sort` flag
(src/commands/list_commands.rs lines 59, 74, 89, 104, 123, 146, 161). -/
def default_sort : ListCommand → SortOrder
  | ListCommand.View => SortOrder.Datetime
  | ListCommand.Process => SortOrder.Value
  | ListCommand.Prioritize => SortOrder.Value
  | ListCommand.Timebox => SortOrder.Value
  | ListCommand.Label => SortOrder.Value
  | ListCommand.Schedule => SortOrder.Value
  | ListCommand.Deadline => SortOrder.Value

/-- C6: without an explicit `--sort` flag, View defaults to Datetime and
every mutating bulk operation defaults to Value. -/
theorem c6_default_sort :
    default_sort ListCommand.View = SortOrder.Datetime ∧
    ∀ c, c ≠ ListCommand.View → default_sort c = SortOrder.Value := by
  refine ⟨rfl, ?_⟩
  intro c hc
  cases c <;> first | rfl | exact absurd rfl hc

/-- Witness for C6 at a concrete mutating operation. -/
theorem c6_default_sort_witness :
    ListCommand.Process ≠ ListCommand.View ∧
    default_sort ListCommand.Process = SortOrder.Value :=
  ⟨by decide, c6_default_sort.2 ListCommand.Process (by decide)⟩

/-- The observable steps of `main` (src/main.rs lines 47-75), in program
order. -/
inductive MainEvent where
  | commandReturned
  | drainedError (e : Error)
  | exited (code : Nat)
deriving DecidableEq, Repr

/-- The event trace of `main` (src/main.rs lines 47-75): the selected
command is awaited to completion, then the error channel is drained in
a loop, then the result is printed and the process exits. -/
def main_trace (asyncErrors : List Error) (result : Except Error String) :
    List MainEvent :=
  MainEvent.commandReturned ::
    (asyncErrors.map MainEvent.drainedError ++
      [MainEvent.exited (match result with
        | Except.ok _ => 0
        | Except.error _ => 1)])

/-- C7: every diagnostics-channel error drained in `main` appears in the
trace strictly after the selected command has returned: position 0 is
the command's return, and any drained error sits at a strictly positive
position. -/
theorem c7_drain_after_command (asyncErrors : List Error)
    (result : Except Error String) (i : Nat) (e : Error)
    (h : (main_trace asyncErrors result)[i]? = some (MainEvent.drainedError e)) :
    (main_trace asyncErrors result)[0]? = some MainEvent.commandReturned ∧
    1 ≤ i := by
  have h0 : (main_trace asyncErrors result)[0]? =
      some MainEvent.commandReturned := by
    simp [main_trace]
  refine ⟨h0, ?_⟩
  cases i with
  | zero => rw [h0] at h; cases h
  | succ n => omega

/-- Witness for C7 at a concrete trace with one drained error. -/
theorem c7_drain_after_command_witness :
    (main_trace [Error.mk "update" "offline"] (Except.ok "done"))[1]? =
      some (MainEvent.drainedError (Error.mk "update" "offline")) ∧
    (main_trace [Error.mk "update" "offline"] (Except.ok "done"))[0]? =
      some MainEvent.commandReturned ∧
    1 ≤ 1 :=
  ⟨by simp [main_trace],
   c7_drain_after_command [Error.mk "update" "offline"] (Except.ok "done") 1
     (Error.mk "update" "offline") (by simp [main_trace])⟩

/-- Index of the first '!' in a character list, mirroring
`content.find('!')` in `quick_add`
(src/commands/task_commands.rs line 117). -/
def findExclaim : List Char → Option Nat
  | [] => none
  | c :: cs =>
    if c = '!' then some 0 else Option.map (fun i => i + 1) (findExclaim cs)

/-- The content/reminder split of `quick_add`
(src/commands/task_commands.rs lines 117-126): split at the first '!',
trim both sides, drop the '!' itself from the reminder; without a '!'
the whole string is the content and there is no reminder. -/
def quick_add_split (content : String) : String × Option String :=
  match findExclaim content.data with
  | some index =>
    ((String.mk (content.data.take index)).trim,
     some (String.mk (content.data.drop (index + 1))).trim)
  | none => (content, none)

lemma findExclaim_of_not_mem (l : List Char) (h : '!' ∉ l) :
    findExclaim l = none := by
  induction l with
  | nil => rfl
  | cons c cs ih =>
    have hc : ¬ c = '!' := fun hc => h (hc ▸ List.mem_cons_self c cs)
    have hcs : '!' ∉ cs := fun hm => h (List.mem_cons_of_mem c hm)
    simp [findExclaim, hc, ih hcs]

lemma findExclaim_append (a b : List Char) (h : '!' ∉ a) :
    findExclaim (a ++ '!' :: b) = some a.length := by
  induction a with
  | nil => simp [findExclaim]
  | cons c cs ih =>
    have hc : ¬ c = '!' := fun hc => h (hc ▸ List.mem_cons_self c cs)
    have hcs : '!' ∉ cs := fun hm => h (List.mem_cons_of_mem c hm)
    simp [findExclaim, hc, ih hcs]

/-- C8: for every content string containing a '!', the text strictly
before the first '!' (trimmed) becomes the task content and the text
after it (trimmed) becomes the reminder, wherever the '!' occurs; a
string without '!' is submitted whole, with no reminder. -/
theorem c8_quick_add_split_at_first_exclaim :
    (∀ s1 s2 : String, '!' ∉ s1.data →
      quick_add_split (s1 ++ "!" ++ s2) = (s1.trim, some s2.trim)) ∧
    (∀ s : String, '!' ∉ s.data → quick_add_split s = (s, none)) := by
  constructor
  · intro s1 s2 h
    have hd : (s1 ++ "!" ++ s2).data = s1.data ++ '!' :: s2.data := by
      rw [String.data_append, String.data_append, List.append_assoc]
      rfl
    have hdrop : (s1.data ++ '!' :: s2.data).drop (s1.data.length + 1) =
        s2.data := by
      have h1 : s1.data ++ '!' :: s2.data = (s1.data ++ ['!']) ++ s2.data := by
        rw [List.append_assoc]
        rfl
      have h2 : (s1.data ++ ['!']).length = s1.data.length + 1 := by
        simp
      rw [h1, ← h2, List.drop_left]
    unfold quick_add_split
    rw [hd, findExclaim_append _ _ h]
    show ((String.mk ((s1.data ++ '!' :: s2.data).take s1.data.length)).trim,
          some (String.mk
            ((s1.data ++ '!' :: s2.data).drop (s1.data.length + 1))).trim) = _
    rw [show (s1.data ++ '!' :: s2.data).take s1.data.length = s1.data from
          List.take_left s1.data ('!' :: s2.data),
        hdrop]
  · intro s h
    unfold quick_add_split
    rw [findExclaim_of_not_mem _ h]

/-- Witness for C8 at the documented example input. -/
theorem c8_quick_add_split_at_first_exclaim_witness :
    '!' ∉ ("Get milk on sunday " : String).data ∧
    quick_add_split ("Get milk on sunday " ++ "!" ++ "saturday 4pm") =
      ("Get milk on sunday ".trim, some "saturday 4pm".trim) :=
  ⟨by decide,
   c8_quick_add_split_at_first_exclaim.1 "Get milk on sunday " "saturday 4pm"
     (by decide)⟩

/-- `Create` arguments (src/commands/task_commands.rs lines 51-80), in
field order. -/
structure Create where
  project : Option String
  due : Option String
  description : String
  content : Option String
  no_section : Bool
  priority : Option Nat
  label : List String
deriving DecidableEq, Repr

/-- `no_flags_used` (src/commands/task_commands.rs lines 243-260):
`no_section` is destructured but discarded; the check consults the six
remaining fields. -/
def no_flags_used (args : Create) : Bool :=
  args.project.isNone && args.due.isNone && args.description.isEmpty &&
    args.content.isNone && args.priority.isNone && args.label.isEmpty

/-- Which branch `create` takes (src/commands/task_commands.rs lines
136-137, 205): the interactive attribute-selection branch when
`no_flags_used`, the flag-driven branch otherwise. -/
inductive CreateMode where
  | interactive
  | flagged
deriving DecidableEq, Repr

/-- The branch selection of `create`
(src/commands/task_commands.rs line 137). -/
def create_mode (args : Create) : CreateMode :=
  if no_flags_used args then CreateMode.interactive else CreateMode.flagged

/-- C9: the interactive attribute-selection mode is entered exactly when
project, due, content and priority are absent, the description is empty
and the label list is empty; the `--no-section` flag is not consulted,
so supplying only `--no-section` still enters the interactive mode. -/
theorem c9_interactive_mode_condition :
    (∀ args : Create,
      create_mode args = CreateMode.interactive ↔
        (args.project = none ∧ args.due = none ∧ args.description = "" ∧
         args.content = none ∧ args.priority = none ∧ args.label = [])) ∧
    (∀ (args : Create) (b : Bool),
      create_mode { args with no_section := b } = create_mode args) ∧
    create_mode (Create.mk none none "" none true none []) =
      CreateMode.interactive := by
  refine ⟨?_, ?_, rfl⟩
  · intro args
    have hb : no_flags_used args = true ↔
        (args.project = none ∧ args.due = none ∧ args.description = "" ∧
         args.content = none ∧ args.priority = none ∧ args.label = []) := by
      simp [no_flags_used, Bool.and_eq_true, Option.isNone_iff_eq_none,
        String.isEmpty_iff, List.isEmpty_iff, and_assoc]
    rw [← hb]
    unfold create_mode
    cases hc : no_flags_used args <;> simp [hc]
  · intro args b
    rfl

/-- Witness for C9: an invocation supplying only `--no-section` enters
the interactive attribute-selection mode. -/
theorem c9_interactive_mode_condition_witness :
    create_mode (Create.mk none none "" none true none []) =
      CreateMode.interactive :=
  c9_interactive_mode_condition.2.2

/-- A walked directory entry (`walkdir::DirEntry`): its full path and
its file name. -/
structure DirEntry where
  path : String
  file_name : String
deriving DecidableEq, Repr

/-- Modelled from the spec: the filesystem boundary consulted by the
bulk-import operation — directory/file tests (`Path::is_dir`,
`Path::is_file`) and the recursive walk (`WalkDir`, with unreadable
entries already filtered out as in `filter_map(|e| e.ok())`). -/
structure FileSystem where
  is_dir : String → Bool
  is_file : String → Bool
  walk : String → List DirEntry

/-- `is_md_file` (src/commands/list_commands.rs lines 262-268). -/
def is_md_file (entry : DirEntry) : Bool :=
  entry.file_name.endsWith ".md"

/-- `Vec::dedup` as called by `select_file`: removes consecutive
duplicates. -/
def vec_dedup : List String → List String
  | [] => []
  | [a] => [a]
  | a :: b :: rest =>
    if a = b then vec_dedup (b :: rest) else a :: vec_dedup (b :: rest)

/-- `select_file` (src/commands/list_commands.rs lines 238-260).  For a
directory: walk it, keep the `.md` entries' paths, sort, dedup, and
offer them in a select prompt (the offered list is returned as the
second component; the user's pick by index as the first).  For an
existing file: return it unchanged, no prompt.  Otherwise: error. -/
def select_file (fs : FileSystem) (path_or_file : String) (ui : UserInput) :
    Except Error String × Option (List String) :=
  if fs.is_dir path_or_file then
    let options :=
      vec_dedup
        ((((fs.walk path_or_file).filter is_md_file).map DirEntry.path).mergeSort
          (fun a b => decide (a ≤ b)))
    (Except.ok (options.getD ui.fileChoice ""), some options)
  else if fs.is_file path_or_file then
    (Except.ok path_or_file, none)
  else
    (Except.error
      (Error.mk "select_file"
        (path_or_file ++ " is neither a file nor a directory")),
     none)

lemma vec_dedup_mem (l : List String) (x : String) :
    x ∈ vec_dedup l ↔ x ∈ l := by
  induction l with
  | nil => simp [vec_dedup]
  | cons a tl ih =>
    cases tl with
    | nil => simp [vec_dedup]
    | cons b rest =>
      by_cases hab : a = b
      · subst hab
        rw [show vec_dedup (a :: a :: rest) = vec_dedup (a :: rest) from by
          simp [vec_dedup]]
        rw [ih]
        simp [List.mem_cons]
      · rw [show vec_dedup (a :: b :: rest) = a :: vec_dedup (b :: rest) from by
          simp [vec_dedup, hab]]
        simp [List.mem_cons, ih]

lemma vec_dedup_pairwise_lt (l : List String)
    (h : l.Pairwise (fun a b => a ≤ b)) :
    (vec_dedup l).Pairwise (fun a b => a < b) := by
  induction l with
  | nil => simp [vec_dedup]
  | cons a tl ih =>
    rw [List.pairwise_cons] at h
    cases tl with
    | nil => simp [vec_dedup]
    | cons b rest =>
      by_cases hab : a = b
      · rw [show vec_dedup (a :: b :: rest) = vec_dedup (b :: rest) from by
          simp [vec_dedup, hab]]
        exact ih h.2
      · rw [show vec_dedup (a :: b :: rest) = a :: vec_dedup (b :: rest) from by
          simp [vec_dedup, hab]]
        rw [List.pairwise_cons]
        refine ⟨?_, ih h.2⟩
        intro y hy
        have hyb : y ∈ b :: rest := (vec_dedup_mem _ _).mp hy
        have hab' : a < b :=
          lt_of_le_of_ne (h.1 b (List.mem_cons_self b rest)) hab
        have hby : b ≤ y := by
          rcases List.mem_cons.mp hyb with hyb | hyr
          · exact hyb ▸ le_refl b
          · exact (List.pairwise_cons.mp h.2).1 y hyr
        exact lt_of_lt_of_le hab' hby

lemma string_le_sorted_mergeSort (l : List String) :
    (l.mergeSort (fun a b => decide (a ≤ b))).Pairwise
      (fun a b : String => a ≤ b) := by
  have hs := @List.sorted_mergeSort String
    (fun a b : String => decide (a ≤ b))
    (fun a b c h1 h2 => by
      simp only [decide_eq_true_eq] at h1 h2 ⊢
      exact le_trans h1 h2)
    (fun a b => by
      simp only [Bool.or_eq_true, decide_eq_true_eq]
      exact le_total a b)
    l
  exact hs.imp (fun h => of_decide_eq_true h)

/-- C10: for the import operation's file selection, a directory path
yields a prompt whose offered options are exactly the walked entries
with file names ending in ".md" (by membership), strictly sorted — so
lexicographically ordered and duplicate-free; an existing file path is
returned unchanged without prompting; any other path fails with the
"neither a file nor a directory" error. -/
theorem c10_select_file (fs : FileSystem) (path : String) (ui : UserInput) :
    (fs.is_dir path = true →
      ∃ options, (select_file fs path ui).2 = some options ∧
        (∀ s, s ∈ options ↔
          ∃ e, e ∈ fs.walk path ∧ is_md_file e = true ∧ e.path = s) ∧
        options.Pairwise (fun a b : String => a < b)) ∧
    (fs.is_dir path = false → fs.is_file path = true →
      select_file fs path ui = (Except.ok path, none)) ∧
    (fs.is_dir path = false → fs.is_file path = false →
      select_file fs path ui =
        (Except.error
          (Error.mk "select_file"
            (path ++ " is neither a file nor a directory")),
         none)) := by
  refine ⟨?_, ?_, ?_⟩
  · intro hdir
    refine ⟨vec_dedup
        ((((fs.walk path).filter is_md_file).map DirEntry.path).mergeSort
          (fun a b => decide (a ≤ b))), ?_, ?_, ?_⟩
    · unfold select_file
      rw [hdir]
      rfl
    · intro s
      rw [vec_dedup_mem,
        (List.mergeSort_perm
          (((fs.walk path).filter is_md_file).map DirEntry.path)
          (fun a b => decide (a ≤ b))).mem_iff]
      simp only [List.mem_map, List.mem_filter]
      constructor
      · rintro ⟨e, ⟨he, hmd⟩, hp⟩
        exact ⟨e, he, hmd, hp⟩
      · rintro ⟨e, he, hmd, hp⟩
        exact ⟨e, ⟨he, hmd⟩, hp⟩
    · exact vec_dedup_pairwise_lt _ (string_le_sorted_mergeSort _)
  · intro hdir hfile
    simp [select_file, hdir, hfile]
  · intro hdir hfile
    simp [select_file, hdir, hfile]

/-- Witness for C10 at a concrete path that is neither a file nor a
directory. -/
theorem c10_select_file_witness :
    (FileSystem.mk (fun _ => false) (fun _ => false) (fun _ => [])).is_dir
        "missing" = false ∧
    (FileSystem.mk (fun _ => false) (fun _ => false) (fun _ => [])).is_file
        "missing" = false ∧
    select_file (FileSystem.mk (fun _ => false) (fun _ => false) (fun _ => []))
        "missing" (UserInput.mk FlagOptions.Project 0 "" "" 0) =
      (Except.error
        (Error.mk "select_file"
          "missing is neither a file nor a directory"),
       none) :=
  ⟨rfl, rfl,
   (c10_select_file
      (FileSystem.mk (fun _ => false) (fun _ => false) (fun _ => []))
      "missing" (UserInput.mk FlagOptions.Project 0 "" "" 0)).2.2 rfl rfl⟩

end Tod
